import Mathlib

/-!
Verification of the ETL change-detection and versioning pipeline
(`scripts/etl/etl.js`): extraction → transformation → fingerprint →
conditional load with versioned backups and retention.

Conventions of the embedding:
* Timestamps are modelled as `Nat` milliseconds since the Unix epoch
  (the pipeline only ever handles post-1970 store timestamps).
* JavaScript `Date#toISOString` / ISO parsing are implemented with the
  standard civil-calendar conversion; the script runs in a UTC
  environment, so local-time accessors (`getFullYear`, …) coincide with
  UTC ones.
* `crypto.createHash('sha256')` is modelled by a full SHA-256
  implementation over the UTF-8 bytes of the serialized JSON.
* The output directory is modelled as an association list from file
  name to file content.
-/

namespace Etl

/-- Decimal digits, `String(n).padStart(2, '0')`. -/
def pad2 (n : Nat) : String := if n < 10 then "0" ++ Nat.repr n else Nat.repr n

/-- Three-digit zero padding (milliseconds field of `toISOString`). -/
def pad3 (n : Nat) : String :=
  if n < 10 then "00" ++ Nat.repr n else if n < 100 then "0" ++ Nat.repr n else Nat.repr n

/-- Four-digit zero padding (year field of `toISOString`). -/
def pad4 (n : Nat) : String :=
  if n < 10 then "000" ++ Nat.repr n
  else if n < 100 then "00" ++ Nat.repr n
  else if n < 1000 then "0" ++ Nat.repr n
  else Nat.repr n

/-- Civil date (year, month, day) from days since 1970-01-01
(Gregorian calendar, days ≥ 0). -/
def civilFromDays (days : Nat) : Nat × Nat × Nat :=
  let z := days + 719468
  let era := z / 146097
  let doe := z % 146097
  let yoe := (doe - doe / 1460 + doe / 36524 - doe / 146096) / 365
  let y := yoe + era * 400
  let doy := doe - (365 * yoe + yoe / 4 - yoe / 100)
  let mp := (5 * doy + 2) / 153
  let d := doy - (153 * mp + 2) / 5 + 1
  let m := if mp < 10 then mp + 3 else mp - 9
  (if m ≤ 2 then y + 1 else y, m, d)

/-- Days since 1970-01-01 from a civil date (years ≥ 1970). -/
def daysFromCivil (y m d : Nat) : Nat :=
  let y' := if m ≤ 2 then y - 1 else y
  let era := y' / 400
  let yoe := y' % 400
  let doy := (153 * (if m > 2 then m - 3 else m + 9) + 2) / 5 + d - 1
  let doe := yoe * 365 + yoe / 4 - yoe / 100 + doy
  era * 146097 + doe - 719468

/-- `Date#toISOString` for a timestamp in milliseconds since the epoch:
`YYYY-MM-DDTHH:mm:ss.sssZ`. -/
def toISOString (t : Nat) : String :=
  let ymd := civilFromDays (t / 86400000)
  pad4 ymd.1 ++ "-" ++ pad2 ymd.2.1 ++ "-" ++ pad2 ymd.2.2 ++ "T" ++
    pad2 (t / 3600000 % 24) ++ ":" ++ pad2 (t / 60000 % 60) ++ ":" ++
    pad2 (t / 1000 % 60) ++ "." ++ pad3 (t % 1000) ++ "Z"

/-- Value of a list of decimal digit characters. -/
def natOfDigits (cs : List Char) : Nat :=
  cs.foldl (fun a c => a * 10 + (c.toNat - 48)) 0

/-- `new Date(isoString).getTime()` for strings produced by
`toISOString`: parse the fixed-position fields back to epoch
milliseconds. -/
def parseISOms (s : String) : Nat :=
  let cs := s.data
  let y := natOfDigits (cs.take 4)
  let mo := natOfDigits ((cs.drop 5).take 2)
  let d := natOfDigits ((cs.drop 8).take 2)
  let h := natOfDigits ((cs.drop 11).take 2)
  let mi := natOfDigits ((cs.drop 14).take 2)
  let sec := natOfDigits ((cs.drop 17).take 2)
  let ms := natOfDigits ((cs.drop 20).take 3)
  daysFromCivil y mo d * 86400000 + h * 3600000 + mi * 60000 + sec * 1000 + ms

/-! ### SHA-256 (`crypto.createHash('sha256').update(s).digest('hex')`) -/

/-- 2^32. -/
def w32 : Nat := 4294967296

/-- Right rotation of a 32-bit word. -/
def rotr32 (n x : Nat) : Nat := (x / 2 ^ n + x % 2 ^ n * 2 ^ (32 - n)) % w32

/-- Bitwise complement of a 32-bit word. -/
def not32 (x : Nat) : Nat := w32 - 1 - x

/-- SHA-256 round constants (FIPS 180-4, written in decimal). -/
def sha256K : List Nat :=
  [1116352408, 1899447441, 3049323471, 3921009573, 961987163, 1508970993,
   2453635748, 2870763221, 3624381080, 310598401, 607225278, 1426881987,
   1925078388, 2162078206, 2614888103, 3248222580, 3835390401, 4022224774,
   264347078, 604807628, 770255983, 1249150122, 1555081692, 1996064986,
   2554220882, 2821834349, 2952996808, 3210313671, 3336571891, 3584528711,
   113926993, 338241895, 666307205, 773529912, 1294757372, 1396182291,
   1695183700, 1986661051, 2177026350, 2456956037, 2730485921, 2820302411,
   3259730800, 3345764771, 3516065817, 3600352804, 4094571909, 275423344,
   430227734, 506948616, 659060556, 883997877, 958139571, 1322822218,
   1537002063, 1747873779, 1955562222, 2024104815, 2227730452, 2361852424,
   2428436474, 2756734187, 3204031479, 3329325298]

/-- Message-schedule sigma function 0 of SHA-256. -/
def smallSigma0 (x : Nat) : Nat := rotr32 7 x ^^^ rotr32 18 x ^^^ x / 2 ^ 3

/-- Message-schedule sigma function 1 of SHA-256. -/
def smallSigma1 (x : Nat) : Nat := rotr32 17 x ^^^ rotr32 19 x ^^^ x / 2 ^ 10

/-- Big-endian byte expansion, `k` bytes. -/
def beBytes (k n : Nat) : List Nat :=
  (List.range k).map (fun i => n / 2 ^ (8 * (k - 1 - i)) % 256)

/-- SHA-256 message padding: `0x80`, zeros to 56 mod 64, 8-byte
big-endian bit length. -/
def padMessage (msg : List Nat) : List Nat :=
  msg ++ [128] ++ List.replicate ((119 - msg.length % 64) % 64) 0 ++
    beBytes 8 (msg.length * 8)

/-- Group bytes into big-endian 32-bit words. -/
def bytesToWords : List Nat → List Nat
  | a :: b :: c :: d :: rest => (((a * 256 + b) * 256 + c) * 256 + d) :: bytesToWords rest
  | _ => []

/-- Split a word list into 16-word blocks (fuel-driven for structural
recursion). -/
def toBlocksAux : Nat → List Nat → List (List Nat)
  | 0, _ => []
  | n + 1, ws => ws.take 16 :: toBlocksAux n (ws.drop 16)

/-- Split a word list into 16-word blocks. -/
def toBlocks (ws : List Nat) : List (List Nat) := toBlocksAux (ws.length / 16) ws

/-- Extend a 16-word block to the 64-entry message schedule. -/
def extendW (ws : List Nat) : List Nat :=
  (List.range 48).foldl (fun w i =>
    let t := i + 16
    w ++ [(smallSigma1 (w.getD (t - 2) 0) + w.getD (t - 7) 0 + smallSigma0 (w.getD (t - 15) 0) +
      w.getD (t - 16) 0) % w32]) ws

/-- SHA-256 working state. -/
structure Hash8 where
  a : Nat
  b : Nat
  c : Nat
  d : Nat
  e : Nat
  f : Nat
  g : Nat
  h : Nat
deriving DecidableEq, Repr

/-- One SHA-256 compression round. -/
def sha256Round (s : Hash8) (kw : Nat × Nat) : Hash8 :=
  let s1 := rotr32 6 s.e ^^^ rotr32 11 s.e ^^^ rotr32 25 s.e
  let ch := (s.e &&& s.f) ^^^ (not32 s.e &&& s.g)
  let t1 := (s.h + s1 + ch + kw.1 + kw.2) % w32
  let s0 := rotr32 2 s.a ^^^ rotr32 13 s.a ^^^ rotr32 22 s.a
  let maj := (s.a &&& s.b) ^^^ (s.a &&& s.c) ^^^ (s.b &&& s.c)
  let t2 := (s0 + maj) % w32
  ⟨(t1 + t2) % w32, s.a, s.b, s.c, (s.d + t1) % w32, s.e, s.f, s.g⟩

/-- Compress one 16-word block into the running hash. -/
def compressBlock (h : Hash8) (block : List Nat) : Hash8 :=
  let w := extendW block
  let s := (sha256K.zip w).foldl sha256Round h
  ⟨(h.a + s.a) % w32, (h.b + s.b) % w32, (h.c + s.c) % w32, (h.d + s.d) % w32,
   (h.e + s.e) % w32, (h.f + s.f) % w32, (h.g + s.g) % w32, (h.h + s.h) % w32⟩

/-- SHA-256 initial hash value (FIPS 180-4, written in decimal). -/
def sha256H0 : Hash8 :=
  ⟨1779033703, 3144134277, 1013904242, 2773480762,
   1359893119, 2600822924, 528734635, 1541459225⟩

/-- SHA-256 digest of a byte sequence, as 32 bytes. -/
def sha256 (msg : List Nat) : List Nat :=
  let h := (toBlocks (bytesToWords (padMessage msg))).foldl compressBlock sha256H0
  beBytes 4 h.a ++ beBytes 4 h.b ++ beBytes 4 h.c ++ beBytes 4 h.d ++
    beBytes 4 h.e ++ beBytes 4 h.f ++ beBytes 4 h.g ++ beBytes 4 h.h

/-- Lower-case hex digit. -/
def hexDigit (n : Nat) : Char := if n < 10 then Char.ofNat (48 + n) else Char.ofNat (87 + n)

/-- Lower-case hex string of a byte list (`digest('hex')`). -/
def bytesToHex (bs : List Nat) : String :=
  String.mk (bs.foldr (fun b acc => hexDigit (b / 16) :: hexDigit (b % 16) :: acc) [])

/-- UTF-8 encoding of one character. -/
def utf8Enc (c : Char) : List Nat :=
  let n := c.toNat
  if n < 128 then [n]
  else if n < 2048 then [192 + n / 64, 128 + n % 64]
  else if n < 65536 then [224 + n / 4096, 128 + n / 64 % 64, 128 + n % 64]
  else [240 + n / 262144, 128 + n / 4096 % 64, 128 + n / 64 % 64, 128 + n % 64]

/-- UTF-8 bytes of a string (`Buffer.from(s, 'utf8')`). -/
def strBytes (s : String) : List Nat :=
  s.data.foldr (fun c acc => utf8Enc c ++ acc) []

/-- JavaScript `String#trim`: strip leading and trailing whitespace. -/
def jsTrim (s : String) : String :=
  String.mk ((s.data.dropWhile Char.isWhitespace).reverse.dropWhile Char.isWhitespace).reverse

/-! ### String ordering (JavaScript `Array.prototype.sort` default
comparator: lexicographic on code units) -/

/-- Lexicographic comparison of character lists by code point. -/
def charListLe : List Char → List Char → Bool
  | [], _ => true
  | _ :: _, [] => false
  | a :: as, b :: bs =>
    if a.toNat < b.toNat then true
    else if b.toNat < a.toNat then false
    else charListLe as bs

/-- Lexicographic string comparison (the order induced by the default
JavaScript sort comparator). -/
def strLe (a b : String) : Bool := charListLe a.data b.data

/-- The relation sorted by `files.sort()`. -/
def strLeRel (a b : String) : Prop := strLe a b = true

/-- Whether the first list is an initial segment of the second. -/
def listStarts : List Char → List Char → Bool
  | [], _ => true
  | _ :: _, [] => false
  | a :: as, b :: bs => a == b && listStarts as bs

/-- JavaScript `String#startsWith`. -/
def strStartsWith (s p : String) : Bool := listStarts p.data s.data

/-- JavaScript `String#endsWith`. -/
def strEndsWith (s p : String) : Bool := listStarts p.data.reverse s.data.reverse

instance : DecidableRel strLeRel := fun a b => instDecidableEqBool (strLe a b) true

/-- `files.sort()`: sort strings ascending by the default comparator. -/
def sortStrings (l : List String) : List String := List.insertionSort strLeRel l

/-! ### Data model -/

/-- A raw task record as returned by `Task.find({}).lean()`: the
MongoDB document shape declared by the task schema. `_id` is the string
form of the ObjectId; optional schema fields may be absent. -/
structure RawTask where
  _id : String
  title : String
  description : Option String
  completed : Option Bool
  priority : Option String
  dueDate : Option Nat
  createdAt : Nat
  updatedAt : Nat
deriving DecidableEq, Repr

/-- A normalized task as built by the mapper inside `transformTasks`. -/
structure TransformedTask where
  id : String
  title : String
  description : Option String
  completed : Bool
  priority : String
  dueDate : Option String
  createdAt : String
  updatedAt : String
deriving DecidableEq, Repr

/-- The `byPriority` statistics object. -/
structure ByPriority where
  high : Nat
  medium : Nat
  low : Nat
deriving DecidableEq, Repr

/-- The `statistics` object computed in `transformTasks`. -/
structure Statistics where
  total : Nat
  completed : Nat
  pending : Nat
  byPriority : ByPriority
  overdue : Nat
deriving DecidableEq, Repr

/-- Dataset metadata; `dataHash` and `changed` are absent until
`loadDataset` assigns them on the save path. -/
structure Metadata where
  extractedAt : String
  version : String
  count : Nat
  statistics : Statistics
  source : String
  pipeline : String
  dataHash : Option String
  changed : Option Bool
deriving DecidableEq, Repr

/-- The dataset produced by `transformTasks`. -/
structure Dataset where
  metadata : Metadata
  tasks : List TransformedTask
deriving DecidableEq, Repr

/-! ### Transformation -/

/-- `generateVersion()`: `v${year}.${month}.${day}.${hour}${minute}`
from the current time (month/day/hour/minute zero-padded to two
digits, year unpadded). -/
def generateVersion (now : Nat) : String :=
  let ymd := civilFromDays (now / 86400000)
  "v" ++ Nat.repr ymd.1 ++ "." ++ pad2 ymd.2.1 ++ "." ++ pad2 ymd.2.2 ++ "." ++
    pad2 (now / 3600000 % 24) ++ pad2 (now / 60000 % 60)

/-- The per-record mapper inside `transformTasks`. JavaScript
truthiness: an absent or empty-string `description`/`priority` is
falsy, a whitespace-only string is truthy. -/
def transformOne (task : RawTask) : TransformedTask :=
  { id := task._id
    title := jsTrim task.title
    description :=
      match task.description with
      | some s => if s = "" then none else some (jsTrim s)
      | none => none
    completed := task.completed.getD false
    priority :=
      match task.priority with
      | some p => if p = "" then "Medium" else p
      | none => "Medium"
    dueDate := task.dueDate.map toISOString
    createdAt := toISOString task.createdAt
    updatedAt := toISOString task.updatedAt }

/-- `transformTasks(rawTasks)`: normalize the records, compute the
statistics and wrap them with metadata. `now` is the run's clock
reading. -/
def transformTasks (now : Nat) (rawTasks : List RawTask) : Dataset :=
  let transformedTasks := rawTasks.map transformOne
  let stats : Statistics :=
    { total := transformedTasks.length
      completed := (transformedTasks.filter (fun t => t.completed)).length
      pending := (transformedTasks.filter (fun t => !t.completed)).length
      byPriority :=
        { high := (transformedTasks.filter (fun t => t.priority == "High")).length
          medium := (transformedTasks.filter (fun t => t.priority == "Medium")).length
          low := (transformedTasks.filter (fun t => t.priority == "Low")).length }
      overdue := (transformedTasks.filter (fun t =>
        (match t.dueDate with
         | some s => decide (parseISOms s < now)
         | none => false) && !t.completed)).length }
  { metadata :=
      { extractedAt := toISOString now
        version := generateVersion now
        count := transformedTasks.length
        statistics := stats
        source := "mongodb-todo-collection"
        pipeline := "github-actions-etl"
        dataHash := none
        changed := none }
    tasks := transformedTasks }

/-! ### JSON serialization -/

/-- One character of `JSON.stringify` string escaping. -/
def escChar (c : Char) : List Char :=
  if c = '"' then ['\\', '"']
  else if c = '\\' then ['\\', '\\']
  else if c.toNat = 8 then ['\\', 'b']
  else if c.toNat = 9 then ['\\', 't']
  else if c.toNat = 10 then ['\\', 'n']
  else if c.toNat = 12 then ['\\', 'f']
  else if c.toNat = 13 then ['\\', 'r']
  else if c.toNat < 32 then ['\\', 'u', '0', '0', hexDigit (c.toNat / 16), hexDigit (c.toNat % 16)]
  else [c]

/-- `JSON.stringify` of a string value. -/
def jstr (s : String) : String :=
  "\"" ++ String.mk (s.data.foldr (fun c acc => escChar c ++ acc) []) ++ "\""

/-- `JSON.stringify` of a nullable string. -/
def jopt : Option String → String
  | none => "null"
  | some s => jstr s

/-- `JSON.stringify` of a boolean. -/
def jbool (b : Bool) : String := if b then "true" else "false"

/-- Compact (`JSON.stringify(t, null, 0)`) serialization of one
transformed task; keys in object-literal insertion order. -/
def compactTaskJson (t : TransformedTask) : String :=
  "\x7b\"id\":" ++ jstr t.id ++
  ",\"title\":" ++ jstr t.title ++
  ",\"description\":" ++ jopt t.description ++
  ",\"completed\":" ++ jbool t.completed ++
  ",\"priority\":" ++ jstr t.priority ++
  ",\"dueDate\":" ++ jopt t.dueDate ++
  ",\"createdAt\":" ++ jstr t.createdAt ++
  ",\"updatedAt\":" ++ jstr t.updatedAt ++ "\x7d"

/-- Compact serialization of the tasks array. -/
def compactTasksJson (ts : List TransformedTask) : String :=
  "[" ++ String.intercalate "," (ts.map compactTaskJson) ++ "]"

/-- `generateDataHash(data)`: SHA-256 hex digest of
`JSON.stringify(data, null, 0)`; the script only ever applies it to
the `tasks` array. -/
def generateDataHash (tasks : List TransformedTask) : String :=
  bytesToHex (sha256 (strBytes (compactTasksJson tasks)))

/-- Pretty (`JSON.stringify(ds, null, 2)`) serialization of one task at
the nesting depth it has inside the dataset's `tasks` array. -/
def prettyTaskJson (t : TransformedTask) : String :=
  "    \x7b\n      \"id\": " ++ jstr t.id ++
  ",\n      \"title\": " ++ jstr t.title ++
  ",\n      \"description\": " ++ jopt t.description ++
  ",\n      \"completed\": " ++ jbool t.completed ++
  ",\n      \"priority\": " ++ jstr t.priority ++
  ",\n      \"dueDate\": " ++ jopt t.dueDate ++
  ",\n      \"createdAt\": " ++ jstr t.createdAt ++
  ",\n      \"updatedAt\": " ++ jstr t.updatedAt ++ "\n    \x7d"

/-- Pretty serialization of the whole dataset,
`JSON.stringify(dataset, null, 2)`: the content written to
`latest.json` and to the versioned backup. -/
def prettyDatasetJson (d : Dataset) : String :=
  let m := d.metadata
  let s := m.statistics
  "\x7b\n  \"metadata\": \x7b\n    \"extractedAt\": " ++ jstr m.extractedAt ++
  ",\n    \"version\": " ++ jstr m.version ++
  ",\n    \"count\": " ++ Nat.repr m.count ++
  ",\n    \"statistics\": \x7b\n      \"total\": " ++ Nat.repr s.total ++
  ",\n      \"completed\": " ++ Nat.repr s.completed ++
  ",\n      \"pending\": " ++ Nat.repr s.pending ++
  ",\n      \"byPriority\": \x7b\n        \"high\": " ++ Nat.repr s.byPriority.high ++
  ",\n        \"medium\": " ++ Nat.repr s.byPriority.medium ++
  ",\n        \"low\": " ++ Nat.repr s.byPriority.low ++
  "\n      \x7d,\n      \"overdue\": " ++ Nat.repr s.overdue ++
  "\n    \x7d,\n    \"source\": " ++ jstr m.source ++
  ",\n    \"pipeline\": " ++ jstr m.pipeline ++
  (match m.dataHash with
   | none => ""
   | some h => ",\n    \"dataHash\": " ++ jstr h) ++
  (match m.changed with
   | none => ""
   | some c => ",\n    \"changed\": " ++ jbool c) ++
  "\n  \x7d,\n  \"tasks\": " ++
  (match d.tasks with
   | [] => "[]"
   | ts => "[\n" ++ String.intercalate ",\n" (ts.map prettyTaskJson) ++ "\n  ]") ++
  "\n\x7d"

/-! ### Filesystem model and loading -/

/-- The output directory: file name ↦ file content. -/
abbrev FS := List (String × String)

/-- `fs.readFile`: content of a file, `none` when absent. -/
def lookupFile (fs : FS) (name : String) : Option String :=
  (fs.find? (fun e => e.1 == name)).map (fun e => e.2)

/-- `fs.writeFile`: replace the content if the file exists, else create
it. -/
def writeFile (fs : FS) (name content : String) : FS :=
  if fs.any (fun e => e.1 == name) then
    fs.map (fun e => if e.1 == name then (name, content) else e)
  else fs ++ [(name, content)]

/-- `fs.unlink`. -/
def deleteFile (fs : FS) (name : String) : FS :=
  fs.filter (fun e => e.1 != name)

/-- `fs.readdir`: the file names of the directory. -/
def readdir (fs : FS) : List String := fs.map (fun e => e.1)

/-- The default backup retention count (`CONFIG.output.maxBackups`). -/
def maxBackupsDefault : Nat := 5

/-- The backup-file predicate used by `cleanupOldBackups`:
`file.startsWith('dataset-') && file.endsWith('.json')`. -/
def isDatasetFile (f : String) : Bool := strStartsWith f "dataset-" && strEndsWith f ".json"

/-- `cleanupOldBackups()`: list `dataset-*.json` files, sort descending
(`.sort().reverse()`), delete every file past the first `maxBackups`. -/
def cleanupOldBackups (maxBackups : Nat) (fs : FS) : FS :=
  let files := readdir fs
  let datasetFiles := (sortStrings (files.filter isDatasetFile)).reverse
  if maxBackups < datasetFiles.length then
    (datasetFiles.drop maxBackups).foldl deleteFile fs
  else fs

/-- The object returned by `loadDataset`: either the no-change result
or the saved summary. -/
inductive LoadResult where
  | notSaved (reason : String)
  | savedResult (version : String) (hash : String) (count : Nat) (stats : Statistics)
deriving DecidableEq, Repr

/-- The `saved` field of a load result. -/
def LoadResult.saved : LoadResult → Bool
  | .notSaved _ => false
  | .savedResult _ _ _ _ => true

/-- `loadDataset(dataset)` acting on the output directory: hash the
tasks, compare against `latest.hash` (an unreadable marker counts as
changed), and on change write `latest.json`, the versioned backup and
the hash marker, then run retention cleanup. -/
def loadDataset (maxBackups : Nat) (fs : FS) (dataset : Dataset) : FS × LoadResult :=
  let currentHash := generateDataHash dataset.tasks
  let hasChanged :=
    match lookupFile fs "latest.hash" with
    | some previousHash => jsTrim previousHash != currentHash
    | none => true
  if !hasChanged then (fs, .notSaved "No changes detected")
  else
    let ds : Dataset :=
      { dataset with metadata :=
          { dataset.metadata with dataHash := some currentHash, changed := some true } }
    let fs1 := writeFile fs "latest.json" (prettyDatasetJson ds)
    let fs2 := writeFile fs1 ("dataset-" ++ ds.metadata.version ++ ".json") (prettyDatasetJson ds)
    let fs3 := writeFile fs2 "latest.hash" currentHash
    let fs4 := cleanupOldBackups maxBackups fs3
    (fs4, .savedResult ds.metadata.version currentHash ds.metadata.count ds.metadata.statistics)

/-! ### Orchestrator (`runETL` and the process wrapper) -/

/-- Stages of one run, recorded in order of completion. -/
inductive Event where
  | setupDirs
  | connect
  | extractStage
  | transformStage
  | loadStage
  | disconnect
deriving DecidableEq, Repr

/-- The effectful outcomes a run can encounter: each fallible stage
either succeeds or throws with a message; `now` is the clock and `fs`
the initial output directory. -/
structure RunEnv where
  setupError : Option String
  connectError : Option String
  extractResult : Except String (List RawTask)
  transformError : Option String
  loadError : Option String
  now : Nat
  fs : FS

/-- The try-block of `runETL`: setup, connect, then
extract → transform → load, short-circuiting on the first thrown
error with the message wrapping each stage performs. -/
def stageResults (env : RunEnv) : List Event × Except String LoadResult :=
  match env.setupError with
  | some e => ([], .error ("Failed to setup directories: " ++ e))
  | none =>
  match env.connectError with
  | some e => ([.setupDirs], .error ("MongoDB connection failed: " ++ e))
  | none =>
  match env.extractResult with
  | .error e => ([.setupDirs, .connect], .error ("Data extraction failed: " ++ e))
  | .ok rawTasks =>
  match env.transformError with
  | some e => ([.setupDirs, .connect, .extractStage], .error ("Data transformation failed: " ++ e))
  | none =>
  match env.loadError with
  | some e =>
    ([.setupDirs, .connect, .extractStage, .transformStage],
     .error ("Data loading failed: " ++ e))
  | none =>
    ([.setupDirs, .connect, .extractStage, .transformStage, .loadStage],
     .ok (loadDataset maxBackupsDefault env.fs (transformTasks env.now rawTasks)).2)

/-- `runETL()`: the try-block plus the `finally` clause, which closes
the store connection on every exit path before the result or error
leaves the function. -/
def runETL (env : RunEnv) : List Event × Except String LoadResult :=
  let r := stageResults env
  (r.1 ++ [Event.disconnect], r.2)

/-- The process wrapper at the bottom of the script:
`runETL().then(() => process.exit(0)).catch(() => process.exit(1))`. -/
def mainExitCode (env : RunEnv) : Nat :=
  match (runETL env).2 with
  | .ok _ => 0
  | .error _ => 1

/-! ### General helper lemmas -/

/-- Splitting a list by a Boolean predicate preserves its length. -/
theorem lengthFilterSplit {α : Type} (l : List α) (p : α → Bool) :
    (l.filter p).length + (l.filter (fun t => !p t)).length = l.length := by
  induction l with
  | nil => rfl
  | cons t ts ih => cases hp : p t <;> simp [List.filter_cons, hp] <;> omega

end Etl

namespace Etl

/-- C1: if the stored hash marker matches the dataset's fingerprint,
`loadDataset` returns the no-change result and leaves the output
directory — `latest.json`, every `dataset-*.json` and `latest.hash` —
untouched. -/
theorem loadDataset_noop_of_hash_match (maxB : Nat) (fs : FS) (ds : Dataset) (h : String)
    (hread : lookupFile fs "latest.hash" = some h)
    (hmatch : jsTrim h = generateDataHash ds.tasks) :
    loadDataset maxB fs ds = (fs, LoadResult.notSaved "No changes detected") := by
  simp only [loadDataset, hread, hmatch, bne_self_eq_false, Bool.not_false, if_pos]

/-- Witness for C1: a store whose hash marker equals the fingerprint of
the empty task list is left unchanged. -/
theorem loadDataset_noop_of_hash_match_witness :
    loadDataset 5 [("latest.hash", generateDataHash [])] (transformTasks 0 []) =
      ([("latest.hash", generateDataHash [])], LoadResult.notSaved "No changes detected") :=
  loadDataset_noop_of_hash_match 5 _ _ (generateDataHash []) rfl (by decide)

/-- C2: the fingerprint of `transform(records).tasks` does not depend
on the run's clock (so repeated runs on equal input agree), and it is a
function of the `tasks` array alone: datasets with equal tasks but
different metadata have equal fingerprints. -/
theorem fingerprint_deterministic_tasks_only :
    (∀ (recs : List RawTask) (n1 n2 : Nat),
      generateDataHash (transformTasks n1 recs).tasks =
        generateDataHash (transformTasks n2 recs).tasks)
    ∧ (∀ d1 d2 : Dataset, d1.tasks = d2.tasks →
        generateDataHash d1.tasks = generateDataHash d2.tasks) := by
  refine ⟨fun recs n1 n2 => rfl, fun d1 d2 h => by rw [h]⟩

/-- Witness for C2: two datasets with equal (empty) tasks but different
`extractedAt`, `version`, `dataHash` and `changed` metadata have the
same fingerprint. -/
theorem fingerprint_deterministic_tasks_only_witness :
    generateDataHash (Dataset.mk
      ⟨"1970-01-01T00:00:00.000Z", "v1970.01.01.0000", 0, ⟨0, 0, 0, ⟨0, 0, 0⟩, 0⟩,
        "mongodb-todo-collection", "github-actions-etl", none, none⟩ []).tasks =
    generateDataHash (Dataset.mk
      ⟨"2024-01-15T09:30:00.000Z", "v2024.01.15.0930", 0, ⟨0, 0, 0, ⟨0, 0, 0⟩, 0⟩,
        "mongodb-todo-collection", "github-actions-etl", some "4f53", some true⟩ []).tasks :=
  fingerprint_deterministic_tasks_only.2 _ _ rfl

/-- C3 counterexample: a record whose `priority` holds the unrecognized
(truthy) value "Urgent" is kept verbatim by `task.priority || 'Medium'`
and counted in no priority bucket, so the bucket sum falls short of
`total`. -/
theorem priority_bucket_sum_counterexample :
    (transformTasks 0 [⟨"a", "T", none, none, some "Urgent", none, 0, 0⟩]).metadata.statistics.byPriority.high +
      (transformTasks 0 [⟨"a", "T", none, none, some "Urgent", none, 0, 0⟩]).metadata.statistics.byPriority.medium +
      (transformTasks 0 [⟨"a", "T", none, none, some "Urgent", none, 0, 0⟩]).metadata.statistics.byPriority.low ≠
    (transformTasks 0 [⟨"a", "T", none, none, some "Urgent", none, 0, 0⟩]).metadata.statistics.total := by
  decide

/-- Bucket counting over transformed tasks whose priority is one of the
three enum values. -/
theorem filter_priority_sum (ts : List TransformedTask)
    (h : ∀ t ∈ ts, t.priority = "Low" ∨ t.priority = "Medium" ∨ t.priority = "High") :
    (ts.filter (fun t => t.priority == "High")).length +
      (ts.filter (fun t => t.priority == "Medium")).length +
      (ts.filter (fun t => t.priority == "Low")).length = ts.length := by
  induction ts with
  | nil => rfl
  | cons t ts ih =>
    have ht := h t (by simp)
    have hts := ih (fun x hx => h x (by simp [hx]))
    rcases ht with h1 | h1 | h1
    · have eH : (t.priority == "High") = false := by rw [h1]; rfl
      have eM : (t.priority == "Medium") = false := by rw [h1]; rfl
      have eL : (t.priority == "Low") = true := by rw [h1]; rfl
      simp only [List.filter_cons, eH, eM, eL, if_false, if_true, Bool.false_eq_true,
        List.length_cons, List.length]
      omega
    · have eH : (t.priority == "High") = false := by rw [h1]; rfl
      have eM : (t.priority == "Medium") = true := by rw [h1]; rfl
      have eL : (t.priority == "Low") = false := by rw [h1]; rfl
      simp only [List.filter_cons, eH, eM, eL, if_false, if_true, Bool.false_eq_true,
        List.length_cons, List.length]
      omega
    · have eH : (t.priority == "High") = true := by rw [h1]; rfl
      have eM : (t.priority == "Medium") = false := by rw [h1]; rfl
      have eL : (t.priority == "Low") = false := by rw [h1]; rfl
      simp only [List.filter_cons, eH, eM, eL, if_false, if_true, Bool.false_eq_true,
        List.length_cons, List.length]
      omega

/-- C3 amended: for every input sequence in which each record's
`priority` is absent, empty, or one of the recognized enum values
`Low`/`Medium`/`High`, the bucket sum equals `total`; records with a
truthy unrecognized priority (which the store's enum is expected to
prevent) are kept verbatim and counted in no bucket. -/
theorem priority_bucket_sum_of_recognized (now : Nat) (recs : List RawTask)
    (h : ∀ r ∈ recs, r.priority = none ∨ r.priority = some "" ∨
      r.priority = some "Low" ∨ r.priority = some "Medium" ∨ r.priority = some "High") :
    (transformTasks now recs).metadata.statistics.byPriority.high +
      (transformTasks now recs).metadata.statistics.byPriority.medium +
      (transformTasks now recs).metadata.statistics.byPriority.low =
    (transformTasks now recs).metadata.statistics.total := by
  have hmap : ∀ t ∈ recs.map transformOne,
      t.priority = "Low" ∨ t.priority = "Medium" ∨ t.priority = "High" := by
    intro t ht
    rcases List.mem_map.mp ht with ⟨r, hr, rfl⟩
    rcases h r hr with h1 | h1 | h1 | h1 | h1 <;> simp [transformOne, h1]
  exact filter_priority_sum (recs.map transformOne) hmap

/-- Witness for C3 amended: three records with recognized or absent
priorities have bucket counts summing to the total. -/
theorem priority_bucket_sum_of_recognized_witness :
    (transformTasks 0 [⟨"a", "A", none, none, some "High", none, 0, 0⟩,
      ⟨"b", "B", none, none, none, none, 0, 0⟩,
      ⟨"c", "C", none, none, some "Low", none, 0, 0⟩]).metadata.statistics.byPriority.high +
      (transformTasks 0 [⟨"a", "A", none, none, some "High", none, 0, 0⟩,
        ⟨"b", "B", none, none, none, none, 0, 0⟩,
        ⟨"c", "C", none, none, some "Low", none, 0, 0⟩]).metadata.statistics.byPriority.medium +
      (transformTasks 0 [⟨"a", "A", none, none, some "High", none, 0, 0⟩,
        ⟨"b", "B", none, none, none, none, 0, 0⟩,
        ⟨"c", "C", none, none, some "Low", none, 0, 0⟩]).metadata.statistics.byPriority.low =
    (transformTasks 0 [⟨"a", "A", none, none, some "High", none, 0, 0⟩,
      ⟨"b", "B", none, none, none, none, 0, 0⟩,
      ⟨"c", "C", none, none, some "Low", none, 0, 0⟩]).metadata.statistics.total :=
  priority_bucket_sum_of_recognized 0 _ (by decide)

/-- `contains` agrees with list membership for strings. -/
theorem contains_eq_mem_str (l : List String) (a : String) : l.contains a = true ↔ a ∈ l :=
  List.elem_iff

/-- `readdir` after one `unlink`: the deleted name is filtered out. -/
theorem readdir_deleteFile (fs : FS) (n : String) :
    readdir (deleteFile fs n) = (readdir fs).filter (fun f => f != n) := by
  induction fs with
  | nil => rfl
  | cons e fs ih =>
    simp only [deleteFile, readdir, List.filter_cons, List.map_cons] at ih ⊢
    cases hc : (e.1 != n) <;> simp [hc, ih]

/-- `readdir` after unlinking every name in a list. -/
theorem readdir_foldl_deleteFile (l : List String) (fs : FS) :
    readdir (l.foldl deleteFile fs) = (readdir fs).filter (fun f => !l.contains f) := by
  induction l generalizing fs with
  | nil => simp [List.contains]
  | cons a l ih =>
    rw [List.foldl_cons, ih, readdir_deleteFile, List.filter_filter]
    refine List.filter_congr (fun x hx => ?_)
    rw [List.contains_cons, Bool.not_or]
    cases hxa : x == a <;> cases hxl : l.contains x <;> simp [hxa, hxl, bne]

/-- Core of the retention argument, stated against an abstract name for
the descending-sorted backup list. -/
theorem cleanup_retention_aux (maxB : Nat) (fs : FS) (S : List String)
    (hS : S = (sortStrings ((readdir fs).filter isDatasetFile)).reverse)
    (hnd : (readdir fs).Nodup) :
    (((readdir (cleanupOldBackups maxB fs)).filter isDatasetFile).length =
      min maxB ((readdir fs).filter isDatasetFile).length)
    ∧ (∀ f, f ∈ readdir (cleanupOldBackups maxB fs) ↔
        (f ∈ readdir fs ∧ (isDatasetFile f = true → f ∈ S.take maxB))) := by
  have permS : List.Perm S ((readdir fs).filter isDatasetFile) := by
    rw [hS]; exact (List.reverse_perm _).trans (List.perm_insertionSort _ _)
  have ndD : ((readdir fs).filter isDatasetFile).Nodup := List.Nodup.filter _ hnd
  have ndS : S.Nodup := permS.symm.nodup ndD
  have hdisj : (S.take maxB).Disjoint (S.drop maxB) := List.disjoint_take_drop ndS le_rfl
  have hclean : cleanupOldBackups maxB fs =
      if maxB < S.length then (S.drop maxB).foldl deleteFile fs else fs := by
    rw [hS]; rfl
  by_cases hc : maxB < S.length
  · rw [hclean, if_pos hc, readdir_foldl_deleteFile]
    constructor
    · rw [List.filter_filter]
      have e1 : ((readdir fs).filter (fun a => isDatasetFile a && !(S.drop maxB).contains a)) =
          (((readdir fs).filter isDatasetFile).filter
            (fun a => !(S.drop maxB).contains a)) := by
        rw [List.filter_filter]
        exact List.filter_congr (fun x _ => Bool.and_comm _ _)
      rw [e1, (List.Perm.filter _ permS.symm).length_eq]
      have e2' : ∀ p : String → Bool,
          S.filter p = (S.take maxB).filter p ++ (S.drop maxB).filter p := by
        intro p
        conv_lhs => rw [← List.take_append_drop maxB S]
        rw [List.filter_append]
      have e2 := e2' (fun a => !(S.drop maxB).contains a)
      have e3 : (S.take maxB).filter (fun a => !(S.drop maxB).contains a) = S.take maxB := by
        rw [List.filter_eq_self]
        intro a ha
        have : a ∉ S.drop maxB := fun hmem => hdisj ha hmem
        simp [contains_eq_mem_str, this]
      have e4 : (S.drop maxB).filter (fun a => !(S.drop maxB).contains a) = [] := by
        rw [List.filter_eq_nil_iff]
        intro a ha
        simp [contains_eq_mem_str, ha]
      rw [e2, e3, e4, List.append_nil, List.length_take, ← permS.length_eq]
    · intro f
      rw [List.mem_filter]
      constructor
      · rintro ⟨hmem, hnc⟩
        refine ⟨hmem, fun hdf => ?_⟩
        have hfS : f ∈ S := permS.mem_iff.mpr (List.mem_filter.mpr ⟨hmem, hdf⟩)
        have hfS' : f ∈ S.take maxB ++ S.drop maxB := by
          rw [List.take_append_drop]; exact hfS
        rcases List.mem_append.mp hfS' with h | h
        · exact h
        · rw [(contains_eq_mem_str _ _).mpr h] at hnc
          cases hnc
      · rintro ⟨hmem, himp⟩
        refine ⟨hmem, ?_⟩
        by_cases hdf : isDatasetFile f = true
        · have : f ∉ S.drop maxB := fun hmem2 => hdisj (himp hdf) hmem2
          simp [contains_eq_mem_str, this]
        · have : f ∉ S.drop maxB := by
            intro hmem2
            have hfS : f ∈ S := by
              rw [← List.take_append_drop maxB S]
              exact List.mem_append.mpr (Or.inr hmem2)
            exact hdf (List.of_mem_filter (permS.mem_iff.mp hfS))
          simp [contains_eq_mem_str, this]
  · rw [hclean, if_neg hc]
    have hlen : ((readdir fs).filter isDatasetFile).length ≤ maxB := by
      rw [← permS.length_eq]; exact Nat.le_of_not_lt hc
    have htake : S.take maxB = S := List.take_of_length_le (Nat.le_of_not_lt hc)
    refine ⟨(Nat.min_eq_right hlen).symm, fun f => ?_⟩
    constructor
    · intro hmem
      refine ⟨hmem, fun hdf => ?_⟩
      rw [htake]
      exact permS.mem_iff.mpr (List.mem_filter.mpr ⟨hmem, hdf⟩)
    · exact fun h => h.1

/-- Sample output directory for the retention witness. -/
def retentionSampleFS : FS :=
  [("latest.json", "L"), ("dataset-a.json", "1"), ("dataset-b.json", "2"),
   ("dataset-c.json", "3"), ("latest.hash", "h")]

set_option maxRecDepth 400000 in
/-- C4: retention keeps exactly `min maxBackups n` of the `n` backup
files — the first `maxBackups` of the name list sorted descending
(version tokens are lexicographically ordered) — and deletes the rest;
other files are untouched. Concretely, seven consecutive
change-producing runs with `maxBackups = 5` leave exactly the five
most recent `dataset-*.json` files. -/
theorem cleanupOldBackups_retention (maxB : Nat) (fs : FS)
    (hnd : (readdir fs).Nodup) :
    (((readdir (cleanupOldBackups maxB fs)).filter isDatasetFile).length =
      min maxB ((readdir fs).filter isDatasetFile).length)
    ∧ (∀ f, f ∈ readdir (cleanupOldBackups maxB fs) ↔
        (f ∈ readdir fs ∧ (isDatasetFile f = true →
          f ∈ (sortStrings ((readdir fs).filter isDatasetFile)).reverse.take maxB)))
    ∧ (((readdir ([transformTasks 60000 [⟨"a", "A", none, none, none, none, 0, 0⟩],
          transformTasks 120000 [⟨"b", "B", none, none, none, none, 0, 0⟩],
          transformTasks 180000 [⟨"c", "C", none, none, none, none, 0, 0⟩],
          transformTasks 240000 [⟨"d", "D", none, none, none, none, 0, 0⟩],
          transformTasks 300000 [⟨"e", "E", none, none, none, none, 0, 0⟩],
          transformTasks 360000 [⟨"f", "F", none, none, none, none, 0, 0⟩],
          transformTasks 420000 [⟨"g", "G", none, none, none, none, 0, 0⟩]].foldl
            (fun acc d => (loadDataset 5 acc d).1) [])).filter isDatasetFile) =
        ["dataset-v1970.01.01.0003.json", "dataset-v1970.01.01.0004.json",
         "dataset-v1970.01.01.0005.json", "dataset-v1970.01.01.0006.json",
         "dataset-v1970.01.01.0007.json"]) := by
  obtain ⟨h1, h2⟩ := cleanup_retention_aux maxB fs _ rfl hnd
  exact ⟨h1, h2, by decide⟩

/-- Witness for C4: in a directory with three backups and
`maxBackups = 2`, one backup is pruned; the oldest name is gone. -/
theorem cleanupOldBackups_retention_witness :
    (((readdir (cleanupOldBackups 2 retentionSampleFS)).filter isDatasetFile).length =
      min 2 ((readdir retentionSampleFS).filter isDatasetFile).length)
    ∧ ("dataset-a.json" ∈ readdir (cleanupOldBackups 2 retentionSampleFS) ↔
        ("dataset-a.json" ∈ readdir retentionSampleFS ∧ (isDatasetFile "dataset-a.json" = true →
          "dataset-a.json" ∈
            (sortStrings ((readdir retentionSampleFS).filter isDatasetFile)).reverse.take 2))) :=
  ⟨(cleanupOldBackups_retention 2 retentionSampleFS (by decide)).1,
   (cleanupOldBackups_retention 2 retentionSampleFS (by decide)).2.1 "dataset-a.json"⟩

/-- C5: the statistics are the filter counts over the transformed
tasks: `total` is the task count, `completed`/`pending` partition it,
`overdue` counts incomplete tasks with a non-null due date strictly in
the past; on the three-task example of the spec the result is
`total=3, completed=1, pending=2, overdue=1`. -/
theorem transformTasks_statistics (now : Nat) (recs : List RawTask) :
    ((transformTasks now recs).metadata.statistics.total =
        (transformTasks now recs).tasks.length
    ∧ (transformTasks now recs).metadata.statistics.completed =
        ((transformTasks now recs).tasks.filter (fun t => t.completed)).length
    ∧ (transformTasks now recs).metadata.statistics.pending =
        ((transformTasks now recs).tasks.filter (fun t => !t.completed)).length
    ∧ (transformTasks now recs).metadata.statistics.completed +
        (transformTasks now recs).metadata.statistics.pending =
        (transformTasks now recs).metadata.statistics.total
    ∧ (transformTasks now recs).metadata.statistics.overdue =
        ((transformTasks now recs).tasks.filter (fun t =>
          (match t.dueDate with
           | some s => decide (parseISOms s < now)
           | none => false) && !t.completed)).length)
    ∧ (transformTasks 1705311000000
        [⟨"a", "A", none, some true, none, none, 1705224600000, 1705224600000⟩,
         ⟨"b", "B", none, some false, none, some 1705224600000, 1705224600000, 1705224600000⟩,
         ⟨"c", "C", none, some false, none, none, 1705224600000, 1705224600000⟩]).metadata.statistics =
      ⟨3, 1, 2, ⟨0, 3, 0⟩, 1⟩ := by
  refine ⟨⟨rfl, rfl, rfl, lengthFilterSplit _ _, rfl⟩, by decide⟩

/-- C6: with no readable `latest.hash` marker the loader treats the data
as changed and saves; on a first-ever run over an empty store the
dataset has no tasks, zero count, all-zero statistics, and the run
reports `saved: true`. -/
theorem loadDataset_saves_without_previous_hash (maxB : Nat) (fs : FS) (ds : Dataset) (now : Nat)
    (hnone : lookupFile fs "latest.hash" = none) :
    (loadDataset maxB fs ds).2 =
      LoadResult.savedResult ds.metadata.version (generateDataHash ds.tasks)
        ds.metadata.count ds.metadata.statistics
    ∧ (transformTasks now []).tasks = []
    ∧ (transformTasks now []).metadata.count = 0
    ∧ (transformTasks now []).metadata.statistics = ⟨0, 0, 0, ⟨0, 0, 0⟩, 0⟩
    ∧ ((loadDataset maxB fs (transformTasks now [])).2).saved = true := by
  have hsave : ∀ d : Dataset, (loadDataset maxB fs d).2 =
      LoadResult.savedResult d.metadata.version (generateDataHash d.tasks)
        d.metadata.count d.metadata.statistics := by
    intro d
    simp only [loadDataset, hnone, Bool.not_true, Bool.false_eq_true, if_false]
  exact ⟨hsave ds, rfl, rfl, rfl, by rw [hsave (transformTasks now [])]; rfl⟩

/-- Witness for C6: first run on an empty output directory and an empty
store saves the empty dataset. -/
theorem loadDataset_saves_without_previous_hash_witness :
    (loadDataset 5 [] (transformTasks 0 [])).2 =
      LoadResult.savedResult (transformTasks 0 []).metadata.version
        (generateDataHash (transformTasks 0 []).tasks)
        (transformTasks 0 []).metadata.count (transformTasks 0 []).metadata.statistics
    ∧ (transformTasks 0 []).tasks = []
    ∧ (transformTasks 0 []).metadata.count = 0
    ∧ (transformTasks 0 []).metadata.statistics = ⟨0, 0, 0, ⟨0, 0, 0⟩, 0⟩
    ∧ ((loadDataset 5 [] (transformTasks 0 [])).2).saved = true :=
  loadDataset_saves_without_previous_hash 5 [] (transformTasks 0 []) 0 rfl

set_option maxRecDepth 100000 in
/-- C7 counterexample: two change-producing runs within the same
calendar minute (timestamps 0ms and 30000ms) both save, yet only one
`dataset-*.json` file exists afterwards: the second run reused the
version token `v1970.01.01.0000` and overwrote the first run's backup. -/
theorem backup_overwrite_same_minute :
    ((loadDataset 5 [] (transformTasks 0 [⟨"a", "A", none, none, none, none, 0, 0⟩])).2.saved = true)
    ∧ ((loadDataset 5
        (loadDataset 5 [] (transformTasks 0 [⟨"a", "A", none, none, none, none, 0, 0⟩])).1
        (transformTasks 30000 [⟨"b", "B", none, some true, none, none, 0, 0⟩])).2.saved = true)
    ∧ ((readdir (loadDataset 5
        (loadDataset 5 [] (transformTasks 0 [⟨"a", "A", none, none, none, none, 0, 0⟩])).1
        (transformTasks 30000 [⟨"b", "B", none, some true, none, none, 0, 0⟩])).1).filter
          isDatasetFile = ["dataset-v1970.01.01.0000.json"]) := by
  refine ⟨by decide, by decide, by decide⟩

/-- C7 amended: each saving run writes its backup to
`dataset-<version>.json`; distinct version tokens give distinct backup
file names, but the version token has only minute granularity: two runs
in the same calendar minute share the token (and hence the file name),
so the later run overwrites the earlier backup. -/
theorem backup_name_version_granularity :
    (∀ v1 v2 : String, v1 ≠ v2 →
      "dataset-" ++ v1 ++ ".json" ≠ "dataset-" ++ v2 ++ ".json")
    ∧ (∀ t1 t2 : Nat, t1 / 60000 = t2 / 60000 → generateVersion t1 = generateVersion t2) := by
  constructor
  · intro v1 v2 hne heq
    apply hne
    have hd := congrArg String.data heq
    simp only [String.data_append, List.append_assoc] at hd
    have h2 := List.append_cancel_left hd
    have h3 := List.append_cancel_right h2
    cases v1; cases v2
    exact congrArg String.mk h3
  · intro t1 t2 h
    have e1 : (60000 : Nat) * 1440 = 86400000 := by norm_num
    have e2 : (60000 : Nat) * 60 = 3600000 := by norm_num
    have h86 : t1 / 86400000 = t2 / 86400000 := by
      rw [← e1, ← Nat.div_div_eq_div_mul, ← Nat.div_div_eq_div_mul, h]
    have h36 : t1 / 3600000 = t2 / 3600000 := by
      rw [← e2, ← Nat.div_div_eq_div_mul, ← Nat.div_div_eq_div_mul, h]
    unfold generateVersion
    rw [h86, h36, h]

/-- Witness for C7 amended: distinct version tokens give distinct
names, and 0ms and 59999ms (same minute) share a version token. -/
theorem backup_name_version_granularity_witness :
    ("dataset-" ++ "v1970.01.01.0000" ++ ".json" ≠ "dataset-" ++ "v1970.01.01.0001" ++ ".json")
    ∧ generateVersion 0 = generateVersion 59999 :=
  ⟨backup_name_version_granularity.1 _ _ (by decide),
   backup_name_version_granularity.2 0 59999 (by decide)⟩

/-- C8: each emitted record has its title trimmed, explicit-null
description when absent, boolean-coerced completion flag, the string
form of the store key as `id`, ISO-8601 strings for the date fields
with an absent `dueDate` becoming null, and `metadata.count` equals the
number of emitted tasks. -/
theorem transformTasks_normalization (now : Nat) (recs : List RawTask) (r : RawTask) :
    (transformOne r).title = jsTrim r.title
    ∧ (r.description = none → (transformOne r).description = none)
    ∧ (transformOne r).completed = r.completed.getD false
    ∧ (transformOne r).id = r._id
    ∧ (transformOne r).dueDate = r.dueDate.map toISOString
    ∧ (r.dueDate = none → (transformOne r).dueDate = none)
    ∧ (transformOne r).createdAt = toISOString r.createdAt
    ∧ (transformOne r).updatedAt = toISOString r.updatedAt
    ∧ (transformTasks now recs).metadata.count = (transformTasks now recs).tasks.length
    ∧ (transformTasks now recs).tasks = recs.map transformOne := by
  refine ⟨rfl, ?_, rfl, rfl, rfl, ?_, rfl, rfl, rfl, rfl⟩
  · intro hd; simp [transformOne, hd]
  · intro hd; simp [transformOne, hd]

/-- Witness for C8: a record with whitespace around the title, absent
description and absent due date. -/
theorem transformTasks_normalization_witness :
    (transformOne ⟨"507f", "  A  ", none, some true, some "High", none, 0, 0⟩).title =
      jsTrim "  A  "
    ∧ ((⟨"507f", "  A  ", none, some true, some "High", none, 0, 0⟩ : RawTask).description = none →
        (transformOne ⟨"507f", "  A  ", none, some true, some "High", none, 0, 0⟩).description = none)
    ∧ (transformOne ⟨"507f", "  A  ", none, some true, some "High", none, 0, 0⟩).completed =
        (some true).getD false
    ∧ (transformOne ⟨"507f", "  A  ", none, some true, some "High", none, 0, 0⟩).id = "507f"
    ∧ (transformOne ⟨"507f", "  A  ", none, some true, some "High", none, 0, 0⟩).dueDate =
        (none : Option Nat).map toISOString
    ∧ ((⟨"507f", "  A  ", none, some true, some "High", none, 0, 0⟩ : RawTask).dueDate = none →
        (transformOne ⟨"507f", "  A  ", none, some true, some "High", none, 0, 0⟩).dueDate = none)
    ∧ (transformOne ⟨"507f", "  A  ", none, some true, some "High", none, 0, 0⟩).createdAt =
        toISOString 0
    ∧ (transformOne ⟨"507f", "  A  ", none, some true, some "High", none, 0, 0⟩).updatedAt =
        toISOString 0
    ∧ (transformTasks 0 [⟨"507f", "  A  ", none, some true, some "High", none, 0, 0⟩]).metadata.count =
        (transformTasks 0 [⟨"507f", "  A  ", none, some true, some "High", none, 0, 0⟩]).tasks.length
    ∧ (transformTasks 0 [⟨"507f", "  A  ", none, some true, some "High", none, 0, 0⟩]).tasks =
        [(⟨"507f", "  A  ", none, some true, some "High", none, 0, 0⟩ : RawTask)].map transformOne :=
  transformTasks_normalization 0 _ _

/-- C9: the `finally` clause closes the store connection as the last
action of every run — after success, after the no-change result and
after any stage failure — errors are propagated rather than swallowed,
and the process exits 0 exactly on a resolved run and 1 on a rejected
one. -/
theorem runETL_releases_connection_and_exit_codes (env : RunEnv) :
    ((runETL env).1.getLast? = some Event.disconnect)
    ∧ (Event.disconnect ∈ (runETL env).1)
    ∧ (∀ r, (runETL env).2 = .ok r → mainExitCode env = 0)
    ∧ (∀ e, (runETL env).2 = .error e → mainExitCode env = 1 ∧ mainExitCode env ≠ 0)
    ∧ (∀ e, env.setupError = none → env.connectError = none →
        env.extractResult = .error e →
        (runETL env).2 = .error ("Data extraction failed: " ++ e))
    ∧ (∀ rawTasks, env.setupError = none → env.connectError = none →
        env.extractResult = .ok rawTasks → env.transformError = none → env.loadError = none →
        (runETL env).2 =
          .ok (loadDataset maxBackupsDefault env.fs (transformTasks env.now rawTasks)).2) := by
  refine ⟨?_, ?_, ?_, ?_, ?_, ?_⟩
  · simp [runETL]
  · simp [runETL]
  · intro r hr; simp [mainExitCode, hr]
  · intro e he; simp [mainExitCode, he]
  · intro e h1 h2 h3; simp [runETL, stageResults, h1, h2, h3]
  · intro rawTasks h1 h2 h3 h4 h5; simp [runETL, stageResults, h1, h2, h3, h4, h5]

/-- Witness for C9: a run whose extraction fails still disconnects and
exits 1; a fully successful empty-store run disconnects and exits 0. -/
theorem runETL_releases_connection_witness :
    ((runETL ⟨none, none, .error "boom", none, none, 0, []⟩).1.getLast? =
      some Event.disconnect)
    ∧ ((runETL ⟨none, none, .error "boom", none, none, 0, []⟩).2 =
        .error ("Data extraction failed: " ++ "boom"))
    ∧ ((runETL ⟨none, none, .ok [], none, none, 0, []⟩).2 =
        .ok (loadDataset maxBackupsDefault [] (transformTasks 0 [])).2) :=
  ⟨(runETL_releases_connection_and_exit_codes ⟨none, none, .error "boom", none, none, 0, []⟩).1,
   (runETL_releases_connection_and_exit_codes
      ⟨none, none, .error "boom", none, none, 0, []⟩).2.2.2.2.1 "boom" rfl rfl rfl,
   (runETL_releases_connection_and_exit_codes
      ⟨none, none, .ok [], none, none, 0, []⟩).2.2.2.2.2 [] rfl rfl rfl rfl rfl⟩

/-- C10: a present description consisting only of whitespace is truthy,
so it is trimmed and emitted as the empty string rather than null; only
an absent or empty-string description maps to null. -/
theorem description_whitespace_not_null (r : RawTask) (s : String)
    (hd : r.description = some s) (hne : s ≠ "") :
    (transformOne r).description = some (jsTrim s) := by
  simp [transformOne, hd, hne]

/-- Witness for C10: a three-space description is emitted as the empty
string, not null. -/
theorem description_whitespace_not_null_witness :
    (transformOne ⟨"a", "T", some "   ", none, none, none, 0, 0⟩).description =
      some (jsTrim "   ")
    ∧ jsTrim "   " = "" :=
  ⟨description_whitespace_not_null ⟨"a", "T", some "   ", none, none, none, 0, 0⟩ "   "
      rfl (by decide),
   by decide⟩

end Etl
